import Mathlib

/-!
Verification of the FreelanceHub backend order/payment lifecycle subsystem.

The JavaScript source is shallowly embedded: request handlers become pure
functions on explicit world states, document saves become functional record
updates, and JS numbers holding money are modelled as exact rationals.
Timestamps are modelled as integers (milliseconds); adding d days is
modelled as adding d * 86400000.
-/

namespace FreelanceHub

abbrev UserId := Nat

/-- Order status enum from the Order schema (models/Order.js). -/
inductive OrderStatus
  | pending
  | requirements_pending
  | in_progress
  | delivered
  | revision_requested
  | completed
  | cancelled
  | disputed
deriving DecidableEq, Repr, Fintype

/-- Payment status enum from the Order schema. -/
inductive PaymentStatus
  | pending
  | paid
  | refunded
  | failed
deriving DecidableEq, Repr

/-- packageDetails subdocument of an Order. -/
structure PackageDetails where
  title : String
  description : String
  price : ℚ
  deliveryTime : ℤ
  revisions : ℕ
  features : List String
deriving DecidableEq, Repr

/-- One entry of the embedded deliveries array. -/
structure DeliveryRecord where
  message : String
  files : List String
  deliveredAt : ℤ
deriving DecidableEq, Repr

/-- One entry of the embedded revisions array. -/
structure RevisionRecord where
  message : String
  requestedAt : ℤ
deriving DecidableEq, Repr

/-- cancellation subdocument of an Order. -/
structure CancellationRecord where
  reason : String
  requestedBy : UserId
  requestedAt : ℤ
  approved : Bool
  approvedAt : ℤ
deriving DecidableEq, Repr

/-- The Order document (models/Order.js), restricted to the fields the
lifecycle code reads or writes. -/
structure Order where
  buyer : UserId
  seller : UserId
  gig : Option Nat
  package : String
  packageDetails : PackageDetails
  totalAmount : ℚ
  serviceFee : ℚ
  netAmount : ℚ
  status : OrderStatus
  paymentStatus : PaymentStatus
  paymentIntentId : String
  stripeSessionId : Option String
  deliveryDate : Option ℤ
  completedAt : Option ℤ
  deliveries : List DeliveryRecord
  revisions : List RevisionRecord
  cancellation : Option CancellationRecord
  autoCompleteAt : Option ℤ
deriving DecidableEq, Repr

/-- JS Math.round: round half toward positive infinity.  Mathlib round is
defined the same way (floor of x + 1/2). -/
def jsRound (x : ℚ) : ℚ := ((round x : ℤ) : ℚ)

/-- serviceFee = Math.max(2, Math.round(subtotal * 0.05 * 100) / 100)
(routes/payments.js, checkout and custom offer paths); 0.05 written as
5 / 100. -/
def serviceFeeOf (subtotal : ℚ) : ℚ :=
  max 2 (jsRound (subtotal * (5 / 100) * 100) / 100)

/-- totalAmount = subtotal + serviceFee. -/
def totalAmountOf (subtotal : ℚ) : ℚ := subtotal + serviceFeeOf subtotal

/-- netAmount = subtotal - Math.round(subtotal * 0.2 * 100) / 100; 0.2
written as 2 / 10. -/
def netAmountOf (subtotal : ℚ) : ℚ :=
  subtotal - jsRound (subtotal * (2 / 10) * 100) / 100

/-- Order construction in POST /create-checkout-session: fees computed from
the package price, status and paymentStatus take their schema defaults. -/
def createCheckoutOrder (buyerId sellerId : UserId) (gigId : Nat)
    (packageType : String) (pd : PackageDetails)
    (sessionId : String) (paymentIntent : String) : Order :=
  { buyer := buyerId
    seller := sellerId
    gig := some gigId
    package := packageType
    packageDetails := pd
    totalAmount := totalAmountOf pd.price
    serviceFee := serviceFeeOf pd.price
    netAmount := netAmountOf pd.price
    status := .pending
    paymentStatus := .pending
    paymentIntentId := paymentIntent
    stripeSessionId := some sessionId
    deliveryDate := none
    completedAt := none
    deliveries := []
    revisions := []
    cancellation := none
    autoCompleteAt := none }

/-- Order construction in POST /create-custom-offer-payment: rejects a price
below 5, has no associated gig, package type custom. -/
def createCustomOfferOrder (receiverId sellerId : UserId)
    (title description : String) (price : ℚ) (deliveryTime : ℤ)
    (revisions : ℕ) (sessionId : String) (paymentIntent : String) :
    Except String Order :=
  if price < 5 then .error "Minimum price is 5 dollars"
  else .ok
    { buyer := receiverId
      seller := sellerId
      gig := none
      package := "custom"
      packageDetails :=
        { title := title
          description := description
          price := price
          deliveryTime := deliveryTime
          revisions := revisions
          features := [] }
      totalAmount := totalAmountOf price
      serviceFee := serviceFeeOf price
      netAmount := netAmountOf price
      status := .pending
      paymentStatus := .pending
      paymentIntentId := paymentIntent
      stripeSessionId := some sessionId
      deliveryDate := none
      completedAt := none
      deliveries := []
      revisions := []
      cancellation := none
      autoCompleteAt := none }

/-- The Notification schema type enum (models/Notification.js). -/
def notificationTypeEnum : List String :=
  ["new_order", "order_delivered", "order_completed", "order_cancelled",
   "revision_requested", "new_message", "review_received", "payment_received",
   "gig_approved", "gig_rejected", "custom_offer", "system"]

/-- A Notification document, restricted to the fields the order flows set. -/
structure Notification where
  recipient : UserId
  sender : Option UserId
  type : String
  title : String
  message : String
deriving DecidableEq

/-- createNotification (utils/notifications.js): persisting the document runs
the Mongoose schema validation, which rejects a type outside the enum. -/
def createNotification (n : Notification) (notifs : List Notification) :
    Except String (List Notification) :=
  if notificationTypeEnum.contains n.type then .ok (notifs ++ [n])
  else .error ("Notification validation failed")

/-- The seller document fields touched by the order routes. -/
structure UserDoc where
  id : UserId
  totalEarnings : ℚ
  completedOrders : ℕ
  rating : ℚ
  totalReviews : ℕ
deriving DecidableEq

/-- The gig document fields touched by the order routes. -/
structure GigDoc where
  id : Nat
  totalOrders : ℕ
  rating : ℚ
  totalReviews : ℕ
deriving DecidableEq

/-- World state an order route handler reads and writes: the order under its
id, the seller user document, the gig document, and the notification
collection. -/
structure OrderWorld where
  order : Order
  sellerDoc : UserDoc
  gigDoc : GigDoc
  notifs : List Notification
deriving DecidableEq

/-- Failure outcomes of the handlers (each one a distinct 4xx/5xx reply). -/
inductive OpError
  | notFound
  | forbidden
  | invalidTransition
  | invalidStatus
  | revisionLimit
  | cannotCancel
  | paymentNotCompleted
  | notificationInvalid
deriving DecidableEq

/-- orderSchema.methods.scheduleAutoComplete (models/Order.js): writes
autoCompleteAt = now + 3 days only when the status is delivered and
autoCompleteAt is not yet set. -/
def Order.scheduleAutoComplete (o : Order) (now : ℤ) : Order :=
  if o.status = .delivered ∧ o.autoCompleteAt = none then
    { o with autoCompleteAt := some (now + 3 * 24 * 60 * 60 * 1000) }
  else o

/-- String form of a status, as interpolated into the notification type of
the generic status route. -/
def OrderStatus.str : OrderStatus → String
  | .pending => "pending"
  | .requirements_pending => "requirements_pending"
  | .in_progress => "in_progress"
  | .delivered => "delivered"
  | .revision_requested => "revision_requested"
  | .completed => "completed"
  | .cancelled => "cancelled"
  | .disputed => "disputed"

/-- The validTransitions object of PATCH /:id/status (routes/orders.js).  The
object has no key for completed, cancelled or disputed; looking one of them
up yields undefined, which fails the includes check, so those rows are the
empty list. -/
def validTransitions : OrderStatus → List OrderStatus
  | .pending => [.requirements_pending, .in_progress, .cancelled]
  | .requirements_pending => [.in_progress, .cancelled]
  | .in_progress => [.delivered, .cancelled]
  | .delivered => [.completed]
  | .revision_requested => [.in_progress, .delivered]
  | .completed => []
  | .cancelled => []
  | .disputed => []

/-- PATCH /:id/status (routes/orders.js).  Seller-only; guards the requested
status against validTransitions; on delivered stamps deliveryDate and calls
scheduleAutoComplete; on completed stamps completedAt and increments seller
earnings plus counters; saves the order, then persists a notification of
type order_ followed by the status string.  A notification validation
failure surfaces after the order was already saved. -/
def updateOrderStatus (actor : UserId) (status : OrderStatus) (now : ℤ)
    (w : OrderWorld) : Option OpError × OrderWorld :=
  if w.order.seller ≠ actor then (some .forbidden, w)
  else if ¬ (validTransitions w.order.status).contains status then
    (some .invalidTransition, w)
  else
    let o1 := { w.order with status := status }
    let o2 :=
      if status = .delivered then
        Order.scheduleAutoComplete { o1 with deliveryDate := some now } now
      else if status = .completed then { o1 with completedAt := some now }
      else o1
    let seller2 :=
      if status = .completed ∧ w.order.seller = w.sellerDoc.id then
        { w.sellerDoc with
          totalEarnings := w.sellerDoc.totalEarnings + w.order.netAmount
          completedOrders := w.sellerDoc.completedOrders + 1 }
      else w.sellerDoc
    let gig2 :=
      if status = .completed ∧ w.order.gig = some w.gigDoc.id then
        { w.gigDoc with totalOrders := w.gigDoc.totalOrders + 1 }
      else w.gigDoc
    let w1 : OrderWorld :=
      { order := o2, sellerDoc := seller2, gigDoc := gig2, notifs := w.notifs }
    match createNotification
        { recipient := w.order.buyer
          sender := none
          type := "order_" ++ status.str
          title := "Order " ++ status.str
          message := "Your order has been " ++ status.str } w1.notifs with
    | .ok ns => (none, { w1 with notifs := ns })
    | .error _ => (some .notificationInvalid, w1)

/-- POST /:id/deliver (routes/orders.js): seller-only, requires status
in_progress; appends a delivery record, sets delivered, stamps deliveryDate,
schedules auto completion, notifies the buyer. -/
def deliverOrder (actor : UserId) (message : String) (files : List String)
    (now : ℤ) (w : OrderWorld) : Option OpError × OrderWorld :=
  if w.order.seller ≠ actor then (some .forbidden, w)
  else if w.order.status ≠ .in_progress then (some .invalidStatus, w)
  else
    let o1 := { w.order with
      deliveries := w.order.deliveries ++
        [({ message := message, files := files, deliveredAt := now } : DeliveryRecord)]
      status := .delivered
      deliveryDate := some now }
    let o2 := o1.scheduleAutoComplete now
    match createNotification
        { recipient := w.order.buyer
          sender := none
          type := "order_delivered"
          title := "Order Delivered"
          message := "Your order has been delivered" } w.notifs with
    | .ok ns => (none, { w with order := o2, notifs := ns })
    | .error _ => (some .notificationInvalid, { w with order := o2 })

/-- POST /:id/revision (routes/orders.js): buyer-only, requires status
delivered; rejects when usedRevisions is at least availableRevisions;
otherwise appends a revision record, sets revision_requested and notifies
the seller. -/
def requestRevision (actor : UserId) (message : String) (now : ℤ)
    (w : OrderWorld) : Option OpError × OrderWorld :=
  if w.order.buyer ≠ actor then (some .forbidden, w)
  else if w.order.status ≠ .delivered then (some .invalidStatus, w)
  else if w.order.packageDetails.revisions ≤ w.order.revisions.length then
    (some .revisionLimit, w)
  else
    let o1 := { w.order with
      revisions := w.order.revisions ++
        [({ message := message, requestedAt := now } : RevisionRecord)]
      status := .revision_requested }
    match createNotification
        { recipient := w.order.seller
          sender := none
          type := "revision_requested"
          title := "Revision Requested"
          message := "A revision was requested" } w.notifs with
    | .ok ns => (none, { w with order := o1, notifs := ns })
    | .error _ => (some .notificationInvalid, { w with order := o1 })

/-- POST /:id/accept (routes/orders.js): buyer-only, requires status
delivered; sets completed, stamps completedAt, increments seller earnings,
seller completed-order counter and gig order counter, notifies the seller. -/
def acceptOrder (actor : UserId) (now : ℤ) (w : OrderWorld) :
    Option OpError × OrderWorld :=
  if w.order.buyer ≠ actor then (some .forbidden, w)
  else if w.order.status ≠ .delivered then (some .invalidStatus, w)
  else
    let o1 := { w.order with status := .completed, completedAt := some now }
    let seller2 :=
      if w.order.seller = w.sellerDoc.id then
        { w.sellerDoc with
          totalEarnings := w.sellerDoc.totalEarnings + w.order.netAmount
          completedOrders := w.sellerDoc.completedOrders + 1 }
      else w.sellerDoc
    let gig2 :=
      if w.order.gig = some w.gigDoc.id then
        { w.gigDoc with totalOrders := w.gigDoc.totalOrders + 1 }
      else w.gigDoc
    match createNotification
        { recipient := w.order.seller
          sender := none
          type := "order_completed"
          title := "Order Completed"
          message := "The buyer accepted your delivery" } w.notifs with
    | .ok ns =>
        (none, { order := o1, sellerDoc := seller2, gigDoc := gig2, notifs := ns })
    | .error _ =>
        (some .notificationInvalid,
         { order := o1, sellerDoc := seller2, gigDoc := gig2, notifs := w.notifs })

/-- POST /:id/cancel (routes/orders.js): buyer or seller; rejected once the
status is completed, cancelled or disputed; otherwise records the
cancellation metadata, sets cancelled and notifies the other party. -/
def cancelOrder (actor : UserId) (reason : String) (now : ℤ)
    (w : OrderWorld) : Option OpError × OrderWorld :=
  if ¬ (w.order.buyer = actor ∨ w.order.seller = actor) then (some .forbidden, w)
  else if w.order.status = .completed ∨ w.order.status = .cancelled ∨
      w.order.status = .disputed then (some .cannotCancel, w)
  else
    let o1 := { w.order with
      status := .cancelled
      cancellation := some
        { reason := reason
          requestedBy := actor
          requestedAt := now
          approved := true
          approvedAt := now } }
    let recipient := if w.order.buyer = actor then w.order.seller else w.order.buyer
    match createNotification
        { recipient := recipient
          sender := none
          type := "order_cancelled"
          title := "Order Cancelled"
          message := "Order has been cancelled" } w.notifs with
    | .ok ns => (none, { w with order := o1, notifs := ns })
    | .error _ => (some .notificationInvalid, { w with order := o1 })

/-- The fields of a retrieved Stripe checkout session the handlers read. -/
structure StripeSession where
  id : String
  payment_status : String
  payment_intent : String
deriving DecidableEq

/-- World state of the payment routes: the order matched by session or
payment-intent lookup, and the notification collection. -/
structure PaymentWorld where
  order : Order
  notifs : List Notification
deriving DecidableEq

/-- The seller notification of the checkout.session.completed webhook case. -/
def webhookSellerNotif (o : Order) : Notification :=
  { recipient := o.seller
    sender := some o.buyer
    type := "new_order"
    title := "New Order Received"
    message := "You have a new order" }

/-- The buyer notification of the checkout.session.completed webhook case. -/
def webhookBuyerNotif (o : Order) : Notification :=
  { recipient := o.buyer
    sender := none
    type := "payment_received"
    title := "Payment Successful"
    message := "Your payment was successful" }

/-- POST /webhook, case checkout.session.completed (routes/payments.js):
looks the order up by its stored session id; only when found and not
already paid, marks it paid, moves it to requirements_pending, records the
payment intent and fires the seller and buyer notifications.  Both
notification types are members of the schema enum, so both saves succeed
and are modelled as plain appends. -/
def webhookCheckoutCompleted (s : StripeSession) (w : PaymentWorld) :
    PaymentWorld :=
  if w.order.stripeSessionId = some s.id ∧ w.order.paymentStatus ≠ .paid then
    { order := { w.order with
        paymentStatus := .paid
        status := .requirements_pending
        paymentIntentId := s.payment_intent }
      notifs := w.notifs ++ [webhookSellerNotif w.order, webhookBuyerNotif w.order] }
  else w

/-- GET /success/:sessionId (routes/payments.js): requires the retrieved
session to be paid and an order stored under the session id; then, with no
already-paid guard, marks the order paid, moves it to requirements_pending,
records the payment intent, stamps deliveryDate = now plus the package
delivery time in days, and fires the seller and buyer notifications (same
types as the webhook, both members of the schema enum). -/
def sessionSuccess (s : StripeSession) (now : ℤ) (w : PaymentWorld) :
    Option OpError × PaymentWorld :=
  if s.payment_status ≠ "paid" then (some .paymentNotCompleted, w)
  else if w.order.stripeSessionId ≠ some s.id then (some .notFound, w)
  else
    let o1 := { w.order with
      paymentStatus := .paid
      status := .requirements_pending
      paymentIntentId := s.payment_intent
      deliveryDate := some (now + w.order.packageDetails.deliveryTime * 86400000) }
    (none,
     { order := o1
       notifs := w.notifs ++ [webhookSellerNotif w.order, webhookBuyerNotif w.order] })

/-- A Conversation document, restricted to the fields the save hook reads. -/
structure Conversation where
  participants : List UserId
  order : Option Nat
  gig : Option Nat
deriving DecidableEq

/-- conversationSchema.pre save (models/Conversation.js): rejects a
participant list whose length is not exactly 2. -/
def conversationPreSave (c : Conversation) : Except String Conversation :=
  if c.participants.length ≠ 2 then
    .error ("Conversation must have exactly 2 participants")
  else .ok c

/-- Saving a conversation: the pre-save hook runs first; only when it
passes is the document appended to the collection. -/
def saveConversation (c : Conversation) (db : List Conversation) :
    Except String (List Conversation) :=
  match conversationPreSave c with
  | .error e => .error e
  | .ok c2 => .ok (db ++ [c2])

/-- A Review document, restricted to the rating field the aggregators read. -/
structure Review where
  rating : ℚ
deriving DecidableEq

/-- gigSchema.methods.updateRating (models/Gig.js), applied to the list of
reviews found for the gig: reduce-sum the ratings and divide by the count
when nonempty, otherwise reset both fields to zero. -/
def GigDoc.updateRating (g : GigDoc) (reviews : List Review) : GigDoc :=
  if 0 < reviews.length then
    { g with
      rating := (reviews.foldl (fun sum r => sum + r.rating) 0) / reviews.length
      totalReviews := reviews.length }
  else { g with rating := 0, totalReviews := 0 }

/-- userSchema.methods.updateRating (models/User.js), same computation over
the reviews whose reviewee is the user. -/
def UserDoc.updateRating (u : UserDoc) (reviews : List Review) : UserDoc :=
  if 0 < reviews.length then
    { u with
      rating := (reviews.foldl (fun sum r => sum + r.rating) 0) / reviews.length
      totalReviews := reviews.length }
  else { u with rating := 0, totalReviews := 0 }

/-- The transition table of spec section 4.1, written from the spec text.
Rows are as listed there; the delivered row lists completed,
revision_requested (reached via the explicit revision request) and
cancelled; the starred footnote makes the cancellation guard uniform,
disallowed exactly once completed, cancelled or disputed, so cancelled is
also an allowed target from revision_requested; the three terminal states
have no transitions. -/
def specTransitionTable : OrderStatus → List OrderStatus
  | .pending => [.requirements_pending, .in_progress, .cancelled]
  | .requirements_pending => [.in_progress, .cancelled]
  | .in_progress => [.delivered, .cancelled]
  | .delivered => [.completed, .revision_requested, .cancelled]
  | .revision_requested => [.in_progress, .delivered, .cancelled]
  | .completed => []
  | .cancelled => []
  | .disputed => []

/-- The (current, next) status pairs realizable by the order lifecycle
routes: the generic PATCH guarded by validTransitions, deliver (in_progress
to delivered), revision (delivered to revision_requested), accept
(delivered to completed) and cancel (to cancelled unless completed,
cancelled or disputed). -/
def routeTransitionRelation (s t : OrderStatus) : Bool :=
  (validTransitions s).contains t
  || (s = .in_progress && t = .delivered)
  || (s = .delivered && t = .revision_requested)
  || (s = .delivered && t = .completed)
  || (!(s = .completed || s = .cancelled || s = .disputed) && t = .cancelled)

/-- A sample basic package (price 150, 2 revisions), as in the seed data. -/
def samplePackage : PackageDetails :=
  { title := "Basic Website"
    description := "Simple 3 page website"
    price := 150
    deliveryTime := 5
    revisions := 2
    features := [] }

/-- A sample order fresh from checkout-session creation. -/
def sampleOrder : Order :=
  createCheckoutOrder 1 2 10 "basic" samplePackage "cs_test_1" "pi_test_1"

/-- A sample seller document. -/
def sampleSeller : UserDoc :=
  { id := 2, totalEarnings := 0, completedOrders := 0, rating := 0, totalReviews := 0 }

/-- A sample gig document. -/
def sampleGig : GigDoc :=
  { id := 10, totalOrders := 0, rating := 0, totalReviews := 0 }

/-- The retrieved Stripe session of the sample order, paid. -/
def sampleSession : StripeSession :=
  { id := "cs_test_1", payment_status := "paid", payment_intent := "pi_live_1" }

/-- Payment-route world around the sample order, before any payment event. -/
def samplePaymentWorld : PaymentWorld :=
  { order := sampleOrder, notifs := [] }

/-- Spec phrase round(x, 2): round to two decimal places, half toward
positive infinity as JS Math.round does. -/
def round2 (x : ℚ) : ℚ := jsRound (x * 100) / 100

/-- Order-route world around the freshly created sample order. -/
def pendingWorld : OrderWorld :=
  { order := sampleOrder, sellerDoc := sampleSeller, gigDoc := sampleGig, notifs := [] }

/-- The sample order once delivered. -/
def deliveredWorld : OrderWorld :=
  { order := { sampleOrder with status := .delivered }
    sellerDoc := sampleSeller, gigDoc := sampleGig, notifs := [] }

/-- The sample order once completed. -/
def completedWorld : OrderWorld :=
  { order := { sampleOrder with status := .completed }
    sellerDoc := sampleSeller, gigDoc := sampleGig, notifs := [] }

/-- A delivered order on a one-revision package whose single revision is
already used up. -/
def revisionWorld : OrderWorld :=
  { order := { sampleOrder with
      status := .delivered
      packageDetails := { samplePackage with revisions := 1 }
      revisions := [({ message := "first revision", requestedAt := 0 } : RevisionRecord)] }
    sellerDoc := sampleSeller, gigDoc := sampleGig, notifs := [] }

/-- A sample revision request message. -/
def msg0 : String := "please adjust the header"

section Lemmas

lemma contains_order_delivered :
    notificationTypeEnum.contains ("order_delivered") = true := by decide

lemma contains_revision_requested :
    notificationTypeEnum.contains ("revision_requested") = true := by decide

lemma contains_order_completed :
    notificationTypeEnum.contains ("order_completed") = true := by decide

lemma contains_order_cancelled :
    notificationTypeEnum.contains ("order_cancelled") = true := by decide

lemma createNotification_ok (n : Notification) (ns : List Notification)
    (h : notificationTypeEnum.contains n.type = true) :
    createNotification n ns = .ok (ns ++ [n]) := by
  unfold createNotification
  rw [h]
  simp

lemma scheduleAutoComplete_status (o : Order) (now : ℤ) :
    (o.scheduleAutoComplete now).status = o.status := by
  simp only [Order.scheduleAutoComplete]
  split <;> rfl

lemma scheduleAutoComplete_keeps_deadline (o : Order) (now t : ℤ)
    (h : o.autoCompleteAt = some t) : o.scheduleAutoComplete now = o := by
  simp [Order.scheduleAutoComplete, h]

/-- validTransitions is row-wise contained in the spec table. -/
lemma validTransitions_subset_spec :
    ∀ s t : OrderStatus,
      t ∈ validTransitions s → t ∈ specTransitionTable s := by
  decide

/-- The deliver route succeeds exactly under its two guards, and then the
order is delivered. -/
lemma deliverOrder_ok (actor : UserId) (m : String) (fs : List String)
    (now : ℤ) (w : OrderWorld) (h1 : w.order.seller = actor)
    (h2 : w.order.status = .in_progress) :
    (deliverOrder actor m fs now w).1 = none
    ∧ ((deliverOrder actor m fs now w).2).order.status = .delivered := by
  have hn := createNotification_ok
    ({ recipient := w.order.buyer, sender := none, type := "order_delivered",
       title := "Order Delivered", message := "Your order has been delivered" } :
      Notification) w.notifs contains_order_delivered
  simp [deliverOrder, h1, h2, hn, scheduleAutoComplete_status]

/-- The cancel route succeeds for a participant whenever the status is not
terminal, and then the order is cancelled. -/
lemma cancelOrder_ok (actor : UserId) (reason : String) (now : ℤ)
    (w : OrderWorld) (h1 : w.order.buyer = actor ∨ w.order.seller = actor)
    (h2 : ¬(w.order.status = .completed ∨ w.order.status = .cancelled ∨
        w.order.status = .disputed)) :
    (cancelOrder actor reason now w).1 = none
    ∧ ((cancelOrder actor reason now w).2).order.status = .cancelled := by
  simp only [cancelOrder, h1, h2]
  rw [createNotification_ok _ _ contains_order_cancelled]
  simp [h1, h2]

end Lemmas

/-- Claim C1: applying the checkout_completed webhook event twice for the
same Stripe session equals applying it once; in particular, on an order
already paid the webhook is a silent no-op, leaving paymentStatus, order
status, paymentIntentId and the notification collection unchanged. -/
theorem webhook_checkout_completed_idempotent :
    (∀ (s : StripeSession) (w : PaymentWorld),
      webhookCheckoutCompleted s (webhookCheckoutCompleted s w) =
        webhookCheckoutCompleted s w)
    ∧ (∀ (s : StripeSession) (w : PaymentWorld),
      w.order.paymentStatus = .paid → webhookCheckoutCompleted s w = w) := by
  constructor
  · intro s w
    by_cases h : w.order.stripeSessionId = some s.id ∧ w.order.paymentStatus ≠ .paid
    · simp [webhookCheckoutCompleted, h]
    · simp [webhookCheckoutCompleted, h]
  · intro s w hp
    simp [webhookCheckoutCompleted, hp]

/-- Witness for C1 at the sample paid world. -/
theorem webhook_checkout_completed_idempotent_witness :
    (webhookCheckoutCompleted sampleSession samplePaymentWorld).order.paymentStatus =
      PaymentStatus.paid
    ∧ webhookCheckoutCompleted sampleSession
        (webhookCheckoutCompleted sampleSession samplePaymentWorld) =
      webhookCheckoutCompleted sampleSession samplePaymentWorld := by
  have h : (webhookCheckoutCompleted sampleSession samplePaymentWorld).order.paymentStatus =
      PaymentStatus.paid := by
    simp [webhookCheckoutCompleted, samplePaymentWorld, sampleOrder, createCheckoutOrder,
      sampleSession]
  exact ⟨h, webhook_checkout_completed_idempotent.2 sampleSession
    (webhookCheckoutCompleted sampleSession samplePaymentWorld) h⟩

/-- Claim C3: the financials stored at order creation satisfy
serviceFee = max(2, round(subtotal * 0.05, 2)),
netAmount = subtotal - round(subtotal * 0.20, 2),
totalAmount = subtotal + serviceFee, and serviceFee is at least 2; this
holds for both the gig checkout path and the custom offer path, and the
values are functions of the subtotal alone. -/
theorem checkout_fee_computation :
    (∀ (b s : UserId) (g : Nat) (pt : String) (pd : PackageDetails)
        (sid pi2 : String),
      (createCheckoutOrder b s g pt pd sid pi2).serviceFee =
          max 2 (round2 (pd.price * (5 / 100)))
      ∧ (createCheckoutOrder b s g pt pd sid pi2).netAmount =
          pd.price - round2 (pd.price * (2 / 10))
      ∧ (createCheckoutOrder b s g pt pd sid pi2).totalAmount =
          pd.price + (createCheckoutOrder b s g pt pd sid pi2).serviceFee
      ∧ 2 ≤ (createCheckoutOrder b s g pt pd sid pi2).serviceFee)
    ∧ (∀ (r s : UserId) (t d : String) (price : ℚ) (dt : ℤ) (rev : ℕ)
        (sid pi2 : String),
      ¬ price < 5 →
      ∃ o : Order,
        createCustomOfferOrder r s t d price dt rev sid pi2 = .ok o
        ∧ o.serviceFee = max 2 (round2 (price * (5 / 100)))
        ∧ o.netAmount = price - round2 (price * (2 / 10))
        ∧ o.totalAmount = price + o.serviceFee
        ∧ 2 ≤ o.serviceFee) := by
  constructor
  · intro b s g pt pd sid pi2
    exact ⟨rfl, rfl, rfl, le_max_left _ _⟩
  · intro r s t d price dt rev sid pi2 h
    have hval : createCustomOfferOrder r s t d price dt rev sid pi2 = .ok
        { buyer := r
          seller := s
          gig := none
          package := "custom"
          packageDetails :=
            { title := t
              description := d
              price := price
              deliveryTime := dt
              revisions := rev
              features := [] }
          totalAmount := totalAmountOf price
          serviceFee := serviceFeeOf price
          netAmount := netAmountOf price
          status := .pending
          paymentStatus := .pending
          paymentIntentId := pi2
          stripeSessionId := some sid
          deliveryDate := none
          completedAt := none
          deliveries := []
          revisions := []
          cancellation := none
          autoCompleteAt := none } := by
      simp [createCustomOfferOrder, h]
    exact ⟨_, hval, rfl, rfl, rfl, le_max_left _ _⟩

/-- Witness for C3 at the custom offer price 150. -/
theorem checkout_fee_computation_witness :
    ¬ (150 : ℚ) < 5
    ∧ ∃ o : Order,
        createCustomOfferOrder 3 2 msg0 msg0 150 5 0 msg0 msg0 = .ok o
        ∧ o.serviceFee = max 2 (round2 (150 * (5 / 100)))
        ∧ o.netAmount = 150 - round2 (150 * (2 / 10))
        ∧ o.totalAmount = 150 + o.serviceFee
        ∧ 2 ≤ o.serviceFee :=
  ⟨by decide, checkout_fee_computation.2 3 2 msg0 msg0 150 5 0 msg0 msg0 (by decide)⟩

/-- Claim C7: rating recomputation sets rating to the arithmetic mean of
the review ratings and totalReviews to their count, resetting both to zero
on an empty review set, for both the gig and the user aggregator; ratings
5, 5, 4, 2 give mean 4 and count 4. -/
theorem rating_recompute_mean :
    (∀ (g : GigDoc) (reviews : List Review),
      (g.updateRating reviews).totalReviews = reviews.length
      ∧ (g.updateRating reviews).rating =
          (if reviews.length = 0 then 0
           else (reviews.map Review.rating).sum / reviews.length))
    ∧ (∀ (u : UserDoc) (reviews : List Review),
      (u.updateRating reviews).totalReviews = reviews.length
      ∧ (u.updateRating reviews).rating =
          (if reviews.length = 0 then 0
           else (reviews.map Review.rating).sum / reviews.length))
    ∧ (∀ g : GigDoc,
      (g.updateRating [({ rating := 5 } : Review), ({ rating := 5 } : Review),
          ({ rating := 4 } : Review), ({ rating := 2 } : Review)]).rating = 4
      ∧ (g.updateRating [({ rating := 5 } : Review), ({ rating := 5 } : Review),
          ({ rating := 4 } : Review), ({ rating := 2 } : Review)]).totalReviews = 4)
    ∧ (∀ g : GigDoc,
      (g.updateRating []).rating = 0 ∧ (g.updateRating []).totalReviews = 0) := by
  have hfold : ∀ (l : List Review) (a : ℚ),
      l.foldl (fun sum r => sum + r.rating) a = a + (l.map Review.rating).sum := by
    intro l
    induction l with
    | nil => intro a; simp
    | cons x xs ih => intro a; simp [ih, add_assoc]
  refine ⟨?_, ?_, ?_, ?_⟩
  · intro g reviews
    rcases reviews with _ | ⟨x, xs⟩
    · simp [GigDoc.updateRating]
    · simp [GigDoc.updateRating, hfold]
  · intro u reviews
    rcases reviews with _ | ⟨x, xs⟩
    · simp [UserDoc.updateRating]
    · simp [UserDoc.updateRating, hfold]
  · intro g
    constructor
    · norm_num [GigDoc.updateRating, List.foldl_cons, List.foldl_nil]
    · rfl
  · intro g
    exact ⟨rfl, rfl⟩

/-- Claim C9: saving a Conversation whose participant list does not have
length exactly 2 fails in the pre-save hook before persistence, and every
successfully persisted Conversation has exactly two participants. -/
theorem conversation_exactly_two_participants :
    (∀ (c : Conversation) (db : List Conversation),
      c.participants.length ≠ 2 →
      saveConversation c db =
        .error ("Conversation must have exactly 2 participants"))
    ∧ (∀ (c : Conversation) (db db2 : List Conversation),
      saveConversation c db = .ok db2 →
      c.participants.length = 2 ∧ db2 = db ++ [c]) := by
  constructor
  · intro c db h
    simp [saveConversation, conversationPreSave, h]
  · intro c db db2 h
    by_cases h2 : c.participants.length = 2
    · refine ⟨h2, ?_⟩
      simp [saveConversation, conversationPreSave, h2] at h
      exact h.symm
    · simp [saveConversation, conversationPreSave, h2] at h

/-- Witness for C9: one and three participants both fail before persistence. -/
theorem conversation_exactly_two_participants_witness :
    saveConversation { participants := [1], order := none, gig := none } [] =
      .error ("Conversation must have exactly 2 participants")
    ∧ saveConversation { participants := [1, 2, 3], order := none, gig := none } [] =
      .error ("Conversation must have exactly 2 participants") :=
  ⟨conversation_exactly_two_participants.1 _ _ (by decide),
   conversation_exactly_two_participants.1 _ _ (by decide)⟩

/-- Claim C10: scheduleAutoComplete writes autoCompleteAt only when the
order is delivered with autoCompleteAt unset, so the field is assigned at
most once: the method is a no-op in every other state, a no-op once the
field is set, repeated application never changes the first written value,
and a re-delivery keeps an already scheduled deadline. -/
theorem schedule_auto_complete_write_once :
    (∀ (o : Order) (now : ℤ),
      o.status ≠ .delivered → o.scheduleAutoComplete now = o)
    ∧ (∀ (o : Order) (now t : ℤ),
      o.autoCompleteAt = some t → o.scheduleAutoComplete now = o)
    ∧ (∀ (o : Order) (n1 n2 : ℤ),
      (o.scheduleAutoComplete n1).scheduleAutoComplete n2 = o.scheduleAutoComplete n1)
    ∧ (∀ (w : OrderWorld) (actor : UserId) (m : String) (fs : List String)
        (now t : ℤ),
      w.order.autoCompleteAt = some t →
      ((deliverOrder actor m fs now w).2).order.autoCompleteAt = some t) := by
  refine ⟨?_, ?_, ?_, ?_⟩
  · intro o now h
    simp [Order.scheduleAutoComplete, h]
  · intro o now t h
    simp [Order.scheduleAutoComplete, h]
  · intro o n1 n2
    by_cases h : o.status = .delivered ∧ o.autoCompleteAt = none
    · simp [Order.scheduleAutoComplete, h]
    · simp [Order.scheduleAutoComplete, h]
  · intro w actor m fs now t h
    by_cases h1 : w.order.seller ≠ actor
    · simp [deliverOrder, h1, h]
    · by_cases h2 : w.order.status ≠ .in_progress
      · simp [deliverOrder, h1, h2, h]
      · have hn := createNotification_ok
          ({ recipient := w.order.buyer, sender := none, type := "order_delivered",
             title := "Order Delivered", message := "Your order has been delivered" } :
            Notification) w.notifs contains_order_delivered
        simp [deliverOrder, h1, h2, hn, Order.scheduleAutoComplete, h]

/-- Witness for C10: a pending order is untouched, and scheduling on an
order whose deadline is already set keeps the original value. -/
theorem schedule_auto_complete_write_once_witness :
    sampleOrder.status ≠ OrderStatus.delivered
    ∧ sampleOrder.scheduleAutoComplete 0 = sampleOrder
    ∧ ({ sampleOrder with autoCompleteAt := some 99 } : Order).autoCompleteAt = some 99
    ∧ Order.scheduleAutoComplete { sampleOrder with autoCompleteAt := some 99 } 5 =
        { sampleOrder with autoCompleteAt := some 99 } :=
  ⟨by decide,
   schedule_auto_complete_write_once.1 sampleOrder 0 (by decide),
   rfl,
   schedule_auto_complete_write_once.2.1 _ 5 99 rfl⟩

/-- Claim C2: the reachable status-transition relation of the order
lifecycle routes is exactly the section 4.1 table, and the generic status
route fails with the invalid-transition error, leaving the world unchanged,
on every pair outside the table, including every pair whose current status
is the terminal completed, cancelled or disputed. -/
theorem order_status_transition_table :
    (∀ (w : OrderWorld) (t : OrderStatus) (now : ℤ),
      t ∉ specTransitionTable w.order.status →
      updateOrderStatus w.order.seller t now w = (some OpError.invalidTransition, w))
    ∧ (∀ s t : OrderStatus,
      t ∈ specTransitionTable s ↔ routeTransitionRelation s t = true) := by
  constructor
  · intro w t now h
    have hmem : t ∉ validTransitions w.order.status := fun hm =>
      h (validTransitions_subset_spec _ _ hm)
    simp [updateOrderStatus, hmem]
  · decide

/-- Witness for C2: a completed order admits no transition, so a request
for in_progress is rejected with the world untouched. -/
theorem order_status_transition_table_witness :
    OrderStatus.in_progress ∉ specTransitionTable completedWorld.order.status
    ∧ updateOrderStatus completedWorld.order.seller OrderStatus.in_progress 0
        completedWorld = (some OpError.invalidTransition, completedWorld) :=
  ⟨by decide,
   order_status_transition_table.1 completedWorld OrderStatus.in_progress 0 (by decide)⟩

/-- Claim C4, corrected: both orderings of the webhook and the synchronous
success path converge to the same final order with paymentStatus paid and
status requirements_pending, but the success path has no already-paid guard:
it appends its two notifications on every invocation, so running it after
the webhook yields four notifications instead of two. -/
theorem session_success_webhook_convergence :
    ∀ (s : StripeSession) (now : ℤ) (w : PaymentWorld),
      s.payment_status = "paid" →
      w.order.stripeSessionId = some s.id →
      w.order.paymentStatus ≠ PaymentStatus.paid →
      (((sessionSuccess s now (webhookCheckoutCompleted s w)).2).order =
          ((webhookCheckoutCompleted s ((sessionSuccess s now w).2))).order
       ∧ ((sessionSuccess s now (webhookCheckoutCompleted s w)).2).order.paymentStatus =
           PaymentStatus.paid
       ∧ ((sessionSuccess s now (webhookCheckoutCompleted s w)).2).order.status =
           OrderStatus.requirements_pending
       ∧ ((sessionSuccess s now w).2).notifs.length = w.notifs.length + 2
       ∧ ((sessionSuccess s now (webhookCheckoutCompleted s w)).2).notifs.length =
           w.notifs.length + 4) := by
  intro s now w hs hid hp
  simp [webhookCheckoutCompleted, sessionSuccess, hs, hid, hp]

/-- Counterexample to C4 as stated: at the sample paid session, webhook
then success yields four notifications and a stamped deliveryDate, while
the webhook alone yields two notifications and no deliveryDate; the two
runs are not equivalent to a single application. -/
theorem session_success_duplicate_notifications_cex :
    (webhookCheckoutCompleted sampleSession samplePaymentWorld).notifs.length = 2
    ∧ ((sessionSuccess sampleSession 0
          (webhookCheckoutCompleted sampleSession samplePaymentWorld)).2).notifs.length = 4
    ∧ ((sessionSuccess sampleSession 0
          (webhookCheckoutCompleted sampleSession samplePaymentWorld)).2).notifs.length ≠
        (webhookCheckoutCompleted sampleSession samplePaymentWorld).notifs.length
    ∧ ((sessionSuccess sampleSession 0
          (webhookCheckoutCompleted sampleSession samplePaymentWorld)).2).order.deliveryDate ≠
        (webhookCheckoutCompleted sampleSession samplePaymentWorld).order.deliveryDate := by
  simp [webhookCheckoutCompleted, sessionSuccess, samplePaymentWorld, sampleOrder,
    createCheckoutOrder, samplePackage, sampleSession, webhookSellerNotif, webhookBuyerNotif]

/-- Witness for C4 at the sample paid session. -/
theorem session_success_webhook_convergence_witness :
    sampleSession.payment_status = "paid"
    ∧ ((sessionSuccess sampleSession 0 samplePaymentWorld).2).notifs.length =
        samplePaymentWorld.notifs.length + 2 :=
  ⟨rfl,
   (session_success_webhook_convergence sampleSession 0 samplePaymentWorld rfl rfl
     (by decide)).2.2.2.1⟩

/-- Claim C5: accepting a delivered order completes it, stamps completedAt,
credits the stored netAmount to the seller earnings, increments the seller
completed-order counter and the gig order counter by one each; with
subtotal 150 the stored netAmount is 120, so earnings rise by exactly 120. -/
theorem accept_order_credits_seller :
    ∀ (w : OrderWorld) (now : ℤ),
      w.order.status = OrderStatus.delivered →
      w.order.seller = w.sellerDoc.id →
      w.order.gig = some w.gigDoc.id →
      (acceptOrder w.order.buyer now w).1 = none
      ∧ ((acceptOrder w.order.buyer now w).2).order.status = OrderStatus.completed
      ∧ ((acceptOrder w.order.buyer now w).2).order.completedAt = some now
      ∧ ((acceptOrder w.order.buyer now w).2).sellerDoc.totalEarnings =
          w.sellerDoc.totalEarnings + w.order.netAmount
      ∧ ((acceptOrder w.order.buyer now w).2).sellerDoc.completedOrders =
          w.sellerDoc.completedOrders + 1
      ∧ ((acceptOrder w.order.buyer now w).2).gigDoc.totalOrders =
          w.gigDoc.totalOrders + 1
      ∧ netAmountOf 150 = 120
      ∧ (w.order.netAmount = netAmountOf 150 →
          ((acceptOrder w.order.buyer now w).2).sellerDoc.totalEarnings =
            w.sellerDoc.totalEarnings + 120) := by
  intro w now h1 h2 h3
  have h120 : netAmountOf 150 = 120 := by
    norm_num [netAmountOf, jsRound, round_eq]
  refine ⟨?_, ?_, ?_, ?_, ?_, ?_, h120, ?_⟩
  · simp [acceptOrder, h1, h2, h3, createNotification, notificationTypeEnum]
  · simp [acceptOrder, h1, h2, h3, createNotification, notificationTypeEnum]
  · simp [acceptOrder, h1, h2, h3, createNotification, notificationTypeEnum]
  · simp [acceptOrder, h1, h2, h3, createNotification, notificationTypeEnum]
  · simp [acceptOrder, h1, h2, h3, createNotification, notificationTypeEnum]
  · simp [acceptOrder, h1, h2, h3, createNotification, notificationTypeEnum]
  · intro h4
    simp [acceptOrder, h1, h2, h3, h4, h120, createNotification, notificationTypeEnum]

/-- Witness for C5 at the sample delivered order: earnings rise by 120. -/
theorem accept_order_credits_seller_witness :
    deliveredWorld.order.status = OrderStatus.delivered
    ∧ ((acceptOrder deliveredWorld.order.buyer 7 deliveredWorld).2).sellerDoc.totalEarnings =
        deliveredWorld.sellerDoc.totalEarnings + 120 :=
  ⟨rfl, (accept_order_credits_seller deliveredWorld 7 rfl rfl rfl).2.2.2.2.2.2.2 rfl⟩

/-- Claim C6: on a delivered order, the buyer revision request fails with
the revision-limit error exactly when the used revision count has reached
the package allowance, leaving the world unchanged; below the allowance it
appends one revision record and moves the order to revision_requested; and
on a one-revision package a second consecutive request always fails. -/
theorem request_revision_limit :
    ∀ (w : OrderWorld) (m : String) (now : ℤ),
      w.order.status = OrderStatus.delivered →
      ((w.order.packageDetails.revisions ≤ w.order.revisions.length →
          requestRevision w.order.buyer m now w = (some OpError.revisionLimit, w))
       ∧ (w.order.revisions.length < w.order.packageDetails.revisions →
          (requestRevision w.order.buyer m now w).1 = none
          ∧ ((requestRevision w.order.buyer m now w).2).order.status =
              OrderStatus.revision_requested
          ∧ ((requestRevision w.order.buyer m now w).2).order.revisions =
              w.order.revisions ++ [({ message := m, requestedAt := now } : RevisionRecord)])
       ∧ (w.order.packageDetails.revisions = 1 →
          ((requestRevision w.order.buyer m now
              ((requestRevision w.order.buyer m now w).2)).1).isSome = true)) := by
  intro w m now hst
  refine ⟨?_, ?_, ?_⟩
  · intro hlim
    simp [requestRevision, hst, hlim]
  · intro hlt
    have hnle : ¬ w.order.packageDetails.revisions ≤ w.order.revisions.length :=
      not_le.mpr hlt
    simp [requestRevision, hst, hnle, createNotification, notificationTypeEnum]
  · intro hone
    by_cases hused : w.order.packageDetails.revisions ≤ w.order.revisions.length
    · simp [requestRevision, hst, hused]
    · simp [requestRevision, hst, hused, createNotification, notificationTypeEnum]

/-- Witness for C6: one revision already used on a one-revision package, so
the next request is rejected with the limit error and nothing changes. -/
theorem request_revision_limit_witness :
    revisionWorld.order.status = OrderStatus.delivered
    ∧ requestRevision revisionWorld.order.buyer msg0 0 revisionWorld =
        (some OpError.revisionLimit, revisionWorld) :=
  ⟨rfl, (request_revision_limit revisionWorld msg0 0 rfl).1 (by decide)⟩

/-- Claim C8, code bug: the generic status route builds the notification
type by prefixing order_ to the new status, but order_in_progress and
order_requirements_pending are not members of the Notification schema enum;
at the failing input (seller moves a pending order to in_progress) the
transition itself is saved, yet the notification save is rejected by the
enum validation, so no notification is dispatched and the handler errors
after the fact. -/
theorem generic_status_route_notification_enum_bug :
    notificationTypeEnum.contains ("order_" ++ OrderStatus.in_progress.str) = false
    ∧ notificationTypeEnum.contains ("order_" ++ OrderStatus.requirements_pending.str) = false
    ∧ (updateOrderStatus pendingWorld.order.seller OrderStatus.in_progress 0
        pendingWorld).1 = some OpError.notificationInvalid
    ∧ ((updateOrderStatus pendingWorld.order.seller OrderStatus.in_progress 0
        pendingWorld).2).order.status = OrderStatus.in_progress
    ∧ ((updateOrderStatus pendingWorld.order.seller OrderStatus.in_progress 0
        pendingWorld).2).notifs = pendingWorld.notifs := by
  refine ⟨by decide, by decide, ?_, ?_, ?_⟩ <;>
    simp [updateOrderStatus, pendingWorld, sampleOrder, createCheckoutOrder, samplePackage,
      validTransitions, createNotification, notificationTypeEnum, OrderStatus.str,
      Order.scheduleAutoComplete]

end FreelanceHub
